import Mathlib

/-!
Verification development for the pdexplore repository: a shallow embedding of
the exploration-pipeline framework (base.py), the concrete checks
(general.py, numeric.py), the draft column/table drivers and entry points
(core.py) and the path/output utilities (util.py), together with theorems
settling the specified behavioural properties.

Modelling conventions:
* a pandas cell is `Option Val` (`none` = NaN / missing);
* the per-series `pdexplore` cache attribute is `Option Cache`, an insertion
  ordered string-keyed dictionary;
* reported output is a list of `Msg`; lines whose payload is a statistic
  computed by an external library (scipy / statsmodels) are represented
  structurally by a tag, while lines whose exact shape the specification
  constrains are represented exactly;
* external statistical decisions (is a p-value below alpha) are parameters,
  collected in `StatsOracle`;
* a raised-and-uncaught Python exception is `Except.error` carrying a reason
  and the state at the raise (in-place mutations persist across a raise).
-/

set_option maxHeartbeats 1000000

namespace Pdexplore

/-- A scalar cell value of a pandas series: numeric or string. -/
inductive Val where
  | num (n : Int)
  | str (s : String)
deriving DecidableEq

/-- A pandas series: whether `np.issubdtype(series.dtype, np.number)` holds,
and the ordered cells, `none` modelling a missing value (NaN). -/
structure Series where
  dtypeNum : Bool
  vals : List (Option Val)
deriving DecidableEq

/-- `len(series)`. -/
def Series.len (s : Series) : Nat := s.vals.length

/-- `series.dropna()`: the non-missing values, in order. -/
def Series.dropna (s : Series) : List Val := s.vals.filterMap id

/-- `sum(series.isna())`: the number of missing entries. -/
def Series.count_na (s : Series) : Nat := (s.vals.filter Option.isNone).length

/-- Distinct elements of a list in order of first appearance. -/
def distinctVals (l : List Val) : List Val :=
  l.foldl (fun acc v => if v ∈ acc then acc else acc ++ [v]) []

/-- `len(series.unique())`: pandas `unique()` lists every distinct
non-missing value plus a single NaN entry when any entry is missing. -/
def Series.unique_len (s : Series) : Nat :=
  (distinctVals s.dropna).length + (if 0 < s.count_na then 1 else 0)

/-- Stable insertion step of an insertion sort that orders pairs by count,
descending; models the frequency-descending order of `value_counts()`. -/
def insertDesc (p : Val × Nat) : List (Val × Nat) → List (Val × Nat)
  | [] => [p]
  | q :: rest => if p.2 < q.2 then q :: insertDesc p rest else p :: q :: rest

/-- Stable sort by count, descending. -/
def sortCountDesc (l : List (Val × Nat)) : List (Val × Nat) := l.foldr insertDesc []

/-- `series.value_counts()`: (value, occurrence count) pairs over the
non-missing values, ordered by count descending. -/
def Series.value_counts (s : Series) : List (Val × Nat) :=
  sortCountDesc ((distinctVals s.dropna).map (fun v => (v, s.dropna.count v)))

/-- `vcounts.iloc[0]`: the count of the most frequent value (0 when empty). -/
def ilocZeroCount (vc : List (Val × Nat)) : Nat := ((vc.head?).map Prod.snd).getD 0

/-- A value stored in the per-series `pdexplore` cache. A floating-point
statistic computed by an external library is opaque: only its tag is kept. -/
inductive CVal where
  | listV (l : List Val)
  | countsV (l : List (Val × Nat))
  | boolV (b : Bool)
  | floatV (tag : String)
deriving DecidableEq

/-- The `series.pdexplore` dictionary. -/
abbrev Cache := List (String × CVal)

/-- Python dict assignment `d[k] = v`: overwrite in place, else append. -/
def dictSet (c : Cache) (k : String) (v : CVal) : Cache :=
  match c with
  | [] => [(k, v)]
  | (k1, v1) :: rest => if k1 = k then (k, v) :: rest else (k1, v1) :: dictSet rest k v

/-- Python dict read `d[k]`, `none` when the key is absent. -/
def dictGet (c : Cache) (k : String) : Option CVal :=
  match c with
  | [] => none
  | (k1, v1) :: rest => if k1 = k then some v1 else dictGet rest k

/-- One reported output line. Lines carrying externally computed statistics
are `statText` with a tag; lines the claims constrain are structural. -/
inductive Msg where
  | text (s : String)
  | statText (tag : String)
  | header (lbl : Option String)
  | startExplore (lbl : Option String)
  | dtypeReport (numeric : Bool)
  | uniqueReport (nUnique count : Nat)
  | missingReport (countNa count : Nat)
  | plot (entries : List (Val × Nat)) (count : Nat) (lbl : Option String)
  | warningSuspicious (n : Int) (cnt : Nat)
  | warningSuspiciousLen (n : Int)
  | ninesSentinel (n : Int) (cnt : Nat)
  | skipColumn (lbl : String)
  | skipSummary (n : Nat)
  | dfShape (ncols nrows : Nat)
deriving DecidableEq

/-- The mutable state one series exploration run sees: the series cache
attribute (absent until first written) and the output emitted so far. -/
structure St where
  cache : Option Cache
  out : List Msg
deriving DecidableEq

def emit (st : St) (m : Msg) : St := { st with out := st.out ++ [m] }

def emits (st : St) (ms : List Msg) : St := { st with out := st.out ++ ms }

/-- `Exploration.save` (base.py): attach a fresh cache dict when the series
has none (the `AttributeError` branch), then set the key. -/
def Exploration.save (cache : Option Cache) (k : String) (v : CVal) : Cache :=
  match cache with
  | none => dictSet [] k v
  | some c => dictSet c k v

def stSave (st : St) (k : String) (v : CVal) : St :=
  { st with cache := some (Exploration.save st.cache k v) }

def stGet (st : St) (k : String) : Option CVal :=
  match st.cache with
  | none => none
  | some c => dictGet c k

/-- `srs.pdexplore["nona"]` read as a value list; a missing attribute or key
or a value of the wrong shape raises (uncaught). -/
def getNona (st : St) : Except (String × St) (List Val) :=
  match stGet st ("nona") with
  | some (CVal.listV l) => Except.ok l
  | _ => Except.error (("missing cache key nona"), st)

/-- `srs.pdexplore["vcounts"]` read as a frequency table; missing raises. -/
def getVcounts (st : St) : Except (String × St) (List (Val × Nat)) :=
  match stGet st ("vcounts") with
  | some (CVal.countsV l) => Except.ok l
  | _ => Except.error (("missing cache key vcounts"), st)

/-- One `@precondition`-decorated method: its `fail_msg` and its predicate,
which may read and write the series cache and may raise. -/
structure Precond where
  fail_msg : String
  check : Series → St → Except (String × St) (Bool × St)

/-- One `Exploration` subclass instance: display name, the precondition
methods in `inspect.getmembers` (alphabetical) order, and `_explore`. -/
structure Exploration where
  name : String
  preconds : List Precond
  body : Series → St → Except (String × St) St

/-- The skip line `f"{self.name} skipped. Reason: {method.fail_msg}."`. -/
def skipMsg (nm fail_msg : String) : Msg :=
  Msg.text (nm ++ (" skipped. Reason: ") ++ fail_msg ++ ("."))

/-- `Exploration._preconditions_hold` (base.py): evaluate the precondition
methods in order; on the first failure report the skip line and return false
without evaluating the remaining ones. -/
def preconditions_hold (nm : String) (ps : List Precond) (srs : Series) (st : St) :
    Except (String × St) (Bool × St) :=
  match ps with
  | [] => Except.ok (true, st)
  | p :: rest =>
    match p.check srs st with
    | Except.error e => Except.error e
    | Except.ok (b, st1) =>
      if b then preconditions_hold nm rest srs st1
      else Except.ok (false, emit st1 (skipMsg nm p.fail_msg))

/-- `Exploration.apply` (base.py): run `_explore` iff the preconditions hold. -/
def Exploration.apply (e : Exploration) (srs : Series) (st : St) :
    Except (String × St) St :=
  match preconditions_hold e.name e.preconds srs st with
  | Except.error c => Except.error c
  | Except.ok (true, st1) => e.body srs st1
  | Except.ok (false, st1) => Except.ok st1

/-- Apply a stage list in order; an uncaught exception aborts the loop. -/
def applyAll (es : List Exploration) (srs : Series) (st : St) :
    Except (String × St) St :=
  match es with
  | [] => Except.ok st
  | e :: rest =>
    match e.apply srs st with
    | Except.error c => Except.error c
    | Except.ok st1 => applyAll rest srs st1

/-- Python `str(x)` for an optional label: `None` renders as "None". -/
def pyStrOpt : Option String → String
  | none => "None"
  | some s => s

/-- general.py `BasicExploration`: no preconditions; reports dtype, unique
and missing counts, and caches the value-frequency table. The
missing-percentage line `count_na*100/count` (general.py:34) raises an
uncaught `ZeroDivisionError` on a zero-length series, after the first four
report lines. -/
def BasicExploration (lbl : Option String) : Exploration where
  name := "Basic exploration"
  preconds := []
  body := fun srs st =>
    let st1 := emits st
      ([Msg.header lbl, Msg.startExplore lbl, Msg.dtypeReport srs.dtypeNum,
        Msg.uniqueReport srs.unique_len srs.len])
    if srs.len = 0 then Except.error (("ZeroDivisionError"), st1)
    else
      let st2 := emit st1 (Msg.missingReport srs.count_na srs.len)
      Except.ok (stSave st2 ("vcounts") (CVal.countsV srs.value_counts))

/-- general.py `ValueCountsPlot.has_atleast_two_unique_values`. -/
def has_atleast_two_unique_values : Precond where
  fail_msg := "Less than two uniqe values"
  check := fun _srs st =>
    match getVcounts st with
    | Except.error e => Except.error e
    | Except.ok vc => Except.ok (decide (1 < vc.length), st)

/-- general.py `ValueCountsPlot.high_enough_frequency_of_most_frequent_value`:
`vcounts.iloc[0] > 2`. -/
def high_enough_frequency_of_most_frequent_value : Precond where
  fail_msg := "Low frequency of most-frequent value"
  check := fun _srs st =>
    match getVcounts st with
    | Except.error e => Except.error e
    | Except.ok vc => Except.ok (decide (2 < ilocZeroCount vc), st)

/-- general.py `ValueCountsPlot`. Precondition methods in
`inspect.getmembers` (alphabetical) order: `has_atleast_two_unique_values`
before `high_enough_frequency_of_most_frequent_value`. The bar chart is the
`plot` message carrying the (up to 10) rendered rows and the total count the
percentages are taken of. -/
def ValueCountsPlot (lbl : Option String) : Exploration where
  name := "Value counts plot"
  preconds := [has_atleast_two_unique_values,
               high_enough_frequency_of_most_frequent_value]
  body := fun srs st =>
    match getVcounts st with
    | Except.error e => Except.error e
    | Except.ok vc =>
      let vcp := if 10 < vc.length then vc.take 10 else vc
      Except.ok (emit st (Msg.plot vcp srs.len lbl))

/-- general.py `general_exploration`: BasicExploration then ValueCountsPlot. -/
def general_exploration (srs : Series) (lbl : Option String) (st : St) :
    Except (String × St) St :=
  applyAll [BasicExploration lbl, ValueCountsPlot lbl] srs st

/-- The decisions of the external scipy statistical tests: whether each
p-value is below the configured significance level. -/
structure StatsOracle where
  skewReject : List Val → Bool
  shapiroReject : List Val → Bool
  dagReject : List Val → Bool

/-- numeric.py `_BaseNumericExploration.is_of_numeric_dtype`. -/
def is_of_numeric_dtype : Precond where
  fail_msg := "dtype is non-numeric"
  check := fun srs st => Except.ok (srs.dtypeNum, st)

/-- numeric.py `BasicNumericExploration.has_atleast_four_non_null_values`:
note that it caches the non-missing subset under `nona` BEFORE testing its
size, so the cache write happens even when the precondition fails. -/
def basic_has_atleast_four_non_null_values : Precond where
  fail_msg := "Less than four non-null values"
  check := fun srs st =>
    let nona := srs.dropna
    let st1 := stSave st ("nona") (CVal.listV nona)
    Except.ok (decide (4 ≤ nona.length), st1)

/-- numeric.py `BasicNumericExploration`. getmembers order puts
`has_atleast_four_non_null_values` before `is_of_numeric_dtype`. -/
def BasicNumericExploration : Exploration where
  name := "Basic numeric exploration"
  preconds := [basic_has_atleast_four_non_null_values, is_of_numeric_dtype]
  body := fun srs st =>
    match getNona st with
    | Except.error e => Except.error e
    | Except.ok _nona =>
      let st1 := emits st
        ([Msg.text ("--- Starting numeric data exploration ---"),
          Msg.statText ("min-max"), Msg.statText ("mean-std"),
          Msg.statText ("robust-stats-note"), Msg.statText ("median-mad"),
          Msg.statText ("skewness")])
      let st2 := stSave st1 ("skewness") (CVal.floatV ("skew"))
      let st3 :=
        if stGet st2 ("vcounts") = none then
          stSave st2 ("vcounts") (CVal.countsV srs.value_counts)
        else st2
      Except.ok st3

/-- numeric.py `SkewnessTest.has_atleast_eight_non_null_values`: reads the
cached `nona` subset. -/
def skew_has_atleast_eight_non_null_values : Precond where
  fail_msg := "Less than eight non-null values"
  check := fun _srs st =>
    match getNona st with
    | Except.error e => Except.error e
    | Except.ok nona => Except.ok (decide (8 ≤ nona.length), st)

/-- numeric.py `SkewnessTest`. -/
def SkewnessTest (o : StatsOracle) : Exploration where
  name := "Skewness test"
  preconds := [skew_has_atleast_eight_non_null_values, is_of_numeric_dtype]
  body := fun _srs st =>
    match getNona st with
    | Except.error e => Except.error e
    | Except.ok nona =>
      let st1 := emit st (Msg.statText ("skewtest-intro"))
      let st2 := stSave st1 ("skew_zscore") (CVal.floatV ("skew_zscore"))
      let st3 := stSave st2 ("skew_pval") (CVal.floatV ("skew_pval"))
      let st4 := emit st3 (Msg.statText ("skewtest-zscore-pval"))
      if o.skewReject nona then
        Except.ok (stSave (emit st4 (Msg.statText ("skewtest-reject")))
          ("normal_skewness") (CVal.boolV false))
      else
        Except.ok (stSave (emit st4 (Msg.statText ("skewtest-accept")))
          ("normal_skewness") (CVal.boolV true))

/-- numeric.py `ShapiroWilkNormalityTest.has_atleast_four_non_null_values`
(its `fail_msg` says "three" in the source while the test is `>= 4`). -/
def shapiro_has_atleast_four_non_null_values : Precond where
  fail_msg := "Less than three non-null values"
  check := fun _srs st =>
    match getNona st with
    | Except.error e => Except.error e
    | Except.ok nona => Except.ok (decide (4 ≤ nona.length), st)

/-- numeric.py `ShapiroWilkNormalityTest.has_atmost_5000_non_null_values`. -/
def has_atmost_5000_non_null_values : Precond where
  fail_msg := "More than 5000 non-null values"
  check := fun _srs st =>
    match getNona st with
    | Except.error e => Except.error e
    | Except.ok nona => Except.ok (decide (nona.length ≤ 5000), st)

/-- numeric.py `ShapiroWilkNormalityTest`. getmembers order:
`has_atleast_four...`, then `has_atmost_5000...`, then `is_of_numeric_dtype`. -/
def ShapiroWilkNormalityTest (o : StatsOracle) : Exploration where
  name := "Shapiro-Wilk normality test"
  preconds := [shapiro_has_atleast_four_non_null_values,
               has_atmost_5000_non_null_values, is_of_numeric_dtype]
  body := fun _srs st =>
    match getNona st with
    | Except.error e => Except.error e
    | Except.ok nona =>
      let st1 := emits st ([Msg.statText ("shapiro-intro"), Msg.statText ("shapiro-h0")])
      let st2 := stSave st1 ("shapiro_stat") (CVal.floatV ("shapiro_stat"))
      let st3 := stSave st2 ("shapiro_pval") (CVal.floatV ("shapiro_pval"))
      let st4 := emit st3 (Msg.statText ("shapiro-stat-pval"))
      if o.shapiroReject nona then
        Except.ok (stSave (emit st4 (Msg.statText ("shapiro-reject")))
          ("shapiro_normal") (CVal.boolV false))
      else
        Except.ok (stSave (emit st4 (Msg.statText ("shapiro-accept")))
          ("shapiro_normal") (CVal.boolV true))

/-- numeric.py `DagostinoNormalityTest.has_atleast_eight_non_null_values`. -/
def dag_has_atleast_eight_non_null_values : Precond where
  fail_msg := "Less than eight non-null values"
  check := fun _srs st =>
    match getNona st with
    | Except.error e => Except.error e
    | Except.ok nona => Except.ok (decide (8 ≤ nona.length), st)

/-- numeric.py `DagostinoNormalityTest`. -/
def DagostinoNormalityTest (o : StatsOracle) : Exploration where
  name := "D’Agostino’s K^2 normality test"
  preconds := [dag_has_atleast_eight_non_null_values, is_of_numeric_dtype]
  body := fun _srs st =>
    match getNona st with
    | Except.error e => Except.error e
    | Except.ok nona =>
      let st1 := emits st ([Msg.statText ("dagostino-intro"), Msg.statText ("dagostino-h0")])
      let st2 := stSave st1 ("dag_stat") (CVal.floatV ("dag_stat"))
      let st3 := stSave st2 ("dag_pval") (CVal.floatV ("dag_pval"))
      let st4 := emit st3 (Msg.statText ("dagostino-stat-pval"))
      if o.dagReject nona then
        Except.ok (stSave (emit st4 (Msg.statText ("dagostino-reject")))
          ("dagostino_normal") (CVal.boolV false))
      else
        Except.ok (stSave (emit st4 (Msg.statText ("dagostino-accept")))
          ("dagostino_normal") (CVal.boolV true))

/-- numeric.py `SUSPICIOUS_COMPUTING_INT_DICT`: the numbers; the prose
fields only feed the rendered warning text. -/
def SUSPICIOUS_COMPUTING_INTS : List Int :=
  [-128, 127, 255, -32768, 32767, 65535,
   -2147483648, 2147483647, 4294967295,
   -(2 ^ 63), 2 ^ 63 - 1, 2 ^ 64 - 1,
   -(2 ^ 127), 2 ^ 127 - 1, 2 ^ 128 - 1]

/-- Pandas `n in vcounts` checks membership in the index (the values). -/
def vcountsHasInt (vc : List (Val × Nat)) (n : Int) : Bool :=
  vc.any (fun pr => decide (pr.1 = Val.num n))

/-- `vcounts[n]` for an integer key present in the index. -/
def vcountsIntCount (vc : List (Val × Nat)) (n : Int) : Nat :=
  ((vc.find? (fun pr => decide (pr.1 = Val.num n))).map Prod.snd).getD 0

/-- The warnings emitted by `SuspiciousNumbersCheck._explore`. -/
def suspiciousMsgs (srs : Series) (vc : List (Val × Nat)) : List Msg :=
  (SUSPICIOUS_COMPUTING_INTS.map (fun n =>
    (if vcountsHasInt vc n then [Msg.warningSuspicious n (vcountsIntCount vc n)] else [])
    ++ (if decide ((srs.len : Int) = n) then [Msg.warningSuspiciousLen n] else []))).flatten
  ++ (([99, 999, 9999, 99999, 999999, 9999999] : List Int).map (fun n =>
    if vcountsHasInt vc n then [Msg.ninesSentinel n (vcountsIntCount vc n)] else [])).flatten

/-- numeric.py `SuspiciousNumbersCheck`: its only precondition is the
inherited dtype check; its body reads the cached `vcounts` table. -/
def SuspiciousNumbersCheck : Exploration where
  name := "Suspicious numers check"
  preconds := [is_of_numeric_dtype]
  body := fun srs st =>
    match getVcounts st with
    | Except.error e => Except.error e
    | Except.ok vc => Except.ok (emits st (suspiciousMsgs srs vc))

/-- numeric.py `run_numeric_exploration_pipeline`: instantiate
`DEFAULT_NUMERIC_EXPLORATIONS_ORDER` and apply each stage in order. -/
def run_numeric_exploration_pipeline (o : StatsOracle) (srs : Series) (st : St) :
    Except (String × St) St :=
  applyAll [BasicNumericExploration, SkewnessTest o, ShapiroWilkNormalityTest o,
            DagostinoNormalityTest o, SuspiciousNumbersCheck] srs st

/-- The exceptions the core drivers and entry points can raise. -/
inductive PyErr where
  | valueErrorBadPath (path : String)
  | valueErrorSilent
  | typeErrorKw (fn kw : String)
  | zeroDivisionError
deriving DecidableEq

/-- core.py `_val_counts_plot` (draft, function form): same thresholds as the
class check — skip on fewer than 2 rows, skip on `vcounts.iloc[0] < 3`, else
plot up to the ten most frequent values. -/
def val_counts_plot (vc : List (Val × Nat)) (count : Nat) (lbl : Option String) :
    List Msg :=
  if vc.length < 2 then
    [Msg.text ("One unique value. Skipping value counts plot.")]
  else if ilocZeroCount vc < 3 then
    [Msg.text ("Most frequent value appears less than 3 time. Skipping value counts plot.")]
  else
    [Msg.plot (if 10 < vc.length then vc.take 10 else vc) count lbl]

/-- core.py `_explore_numeric_series` (draft, function form); every line that
prints an externally computed statistic is a tagged `statText`. -/
def explore_numeric_series (o : StatsOracle) (srs : Series) : List Msg :=
  let nona := srs.dropna
  if !srs.dtypeNum then []
  else if nona.length < 4 then
    [Msg.text ("Skipping numeric exploration as N < 4.")]
  else
    ([Msg.text ("--- Starting numeric data exploration ---"),
      Msg.statText ("alpha-note"), Msg.statText ("mean-std"),
      Msg.statText ("robust-stats-note"), Msg.statText ("median-min-max-mad"),
      Msg.statText ("skewness")])
    ++ (if nona.length < 8 then [Msg.statText ("skewtest-skip-n-lt-8")]
        else ([Msg.statText ("skewtest-intro"), Msg.statText ("skewtest-zscore-pval")])
          ++ (if o.skewReject nona then [Msg.statText ("skewtest-reject")]
              else [Msg.statText ("skewtest-accept")]))
    ++ [Msg.statText ("normality-header")]
    ++ (if 5000 < nona.length then [Msg.statText ("shapiro-skip-n-gt-5000")]
        else ([Msg.statText ("shapiro-intro"), Msg.statText ("shapiro-h0"),
               Msg.statText ("shapiro-stat-pval")])
          ++ (if o.shapiroReject nona then [Msg.statText ("shapiro-reject")]
              else [Msg.statText ("shapiro-accept")]))
    ++ (if nona.length < 8 then [Msg.statText ("dagostino-skip-n-lt-8")]
        else ([Msg.statText ("dagostino-intro"), Msg.statText ("dagostino-stat-pval")])
          ++ (if o.dagReject nona then [Msg.statText ("dagostino-reject")]
              else [Msg.statText ("dagostino-accept")]))

/-- core.py `_explore_series` (draft, function form): header and basic
reports; the missing-percentage line `count_na*100/count` (core.py:203)
raises an uncaught `ZeroDivisionError` on a zero-entry column, aborting
with the lines already printed; otherwise the value-counts plot and the
numeric exploration follow. The raise carries the output emitted so far. -/
def explore_series_inner (o : StatsOracle) (srs : Series) (lbl : Option String) :
    Except (PyErr × List Msg) (List Msg) :=
  let head : List Msg :=
    [Msg.header lbl, Msg.startExplore lbl, Msg.dtypeReport srs.dtypeNum,
     Msg.uniqueReport srs.unique_len srs.len]
  if srs.len = 0 then Except.error (PyErr.zeroDivisionError, head)
  else
    Except.ok (head ++ [Msg.missingReport srs.count_na srs.len]
      ++ val_counts_plot srs.value_counts srs.len lbl
      ++ explore_numeric_series o srs)

/-- The lines printed by a possibly-aborted call (on an abort, the lines
already emitted when the exception was raised). -/
def emittedMsgs : Except (PyErr × List Msg) (List Msg) → List Msg
  | Except.ok ms => ms
  | Except.error e => e.2

/-- The `skip_cond` argument of `explore`: absent, a single bare callable,
or a collection of callables. -/
inductive SkipCondArg where
  | noneArg
  | single (p : Series → Bool)
  | listArg (ps : List (Series → Bool))

/-- `if callable(skip_cond): skip_cond = [skip_cond]`. -/
def normalizeSkipCond : SkipCondArg → Option (List (Series → Bool))
  | SkipCondArg.noneArg => none
  | SkipCondArg.single p => some [p]
  | SkipCondArg.listArg ps => some ps

/-- `col_lbl in skip_lbl`, with the `TypeError` of `in None` caught and
treated as no label skip. -/
def labelSkipped (skip_lbl : Option (List String)) (lbl : String) : Bool :=
  match skip_lbl with
  | none => false
  | some ls => decide (lbl ∈ ls)

/-- `any([cond(col) for cond in skip_cond])`, with the `TypeError` of
iterating `None` caught by exploring the column. -/
def condSkipped (conds : Option (List (Series → Bool))) (srs : Series) : Bool :=
  match conds with
  | none => false
  | some ps => ps.any (fun p => p srs)

/-- The per-column loop of core.py `_explore_df`: the emitted messages and
the final value of the `skipped` counter. The `except` clauses catch only
`TypeError`, so a `ZeroDivisionError` raised while exploring a column
aborts the loop — later columns are never visited — carrying the lines
emitted so far. -/
def explore_df_loop (o : StatsOracle) (skip_lbl : Option (List String))
    (conds : Option (List (Series → Bool))) :
    List (String × Series) → Except (PyErr × List Msg) (List Msg × Nat)
  | [] => Except.ok ([], 0)
  | (lbl, col) :: rest =>
    if labelSkipped skip_lbl lbl then
      match explore_df_loop o skip_lbl conds rest with
      | Except.error e => Except.error (e.1, Msg.skipColumn lbl :: e.2)
      | Except.ok r => Except.ok (Msg.skipColumn lbl :: r.1, r.2 + 1)
    else if condSkipped conds col then
      match explore_df_loop o skip_lbl conds rest with
      | Except.error e => Except.error (e.1, Msg.skipColumn lbl :: e.2)
      | Except.ok r => Except.ok (Msg.skipColumn lbl :: r.1, r.2 + 1)
    else
      match explore_series_inner o col (some lbl) with
      | Except.error e => Except.error (e.1, e.2)
      | Except.ok ims =>
        match explore_df_loop o skip_lbl conds rest with
        | Except.error e => Except.error (e.1, ims ++ e.2)
        | Except.ok r => Except.ok (ims ++ r.1, r.2)

/-- The lines printed by a possibly-aborted per-column loop. -/
def loopMsgs : Except (PyErr × List Msg) (List Msg × Nat) → List Msg
  | Except.ok r => r.1
  | Except.error e => e.2

/-- `len(df)`: the common length of the columns (0 for no columns). -/
def dfRows : List (String × Series) → Nat
  | [] => 0
  | (_, c) :: _ => c.len

/-- core.py `_explore_df`: header, the per-column loop, and the final skip
summary line (only when at least one column was skipped and the loop ran to
completion — an uncaught per-column exception propagates and the summary is
never printed). -/
def explore_df (o : StatsOracle) (cols : List (String × Series))
    (skip_lbl : Option (List String)) (skip_cond : SkipCondArg) :
    Except (PyErr × List Msg) (List Msg) :=
  let hd : List Msg := [Msg.text ("Starting to explore a dataframe with pdexplore."),
    Msg.dfShape cols.length (dfRows cols)]
  match explore_df_loop o skip_lbl (normalizeSkipCond skip_cond) cols with
  | Except.error e => Except.error (e.1, hd ++ e.2)
  | Except.ok r => Except.ok (hd ++ r.1 ++ (if 0 < r.2 then [Msg.skipSummary r.2] else []))

/-- The process-wide flags of util.py: `PRINT_TO_SCREEN` and whether
`OUTPUT_F` currently holds an open stream. -/
structure GState where
  printToScreen : Bool
  outputF : Bool
deriving DecidableEq

/-- The filesystem as seen through `os.path.isdir` / `os.path.isfile`. -/
structure FS where
  isDir : String → Bool
  isFile : String → Bool

/-- The broken-down GMT time used by util.py `nice_time_str`. -/
structure GTime where
  year : Nat
  mon : Nat
  mday : Nat
  hour : Nat
  minute : Nat
  sec : Nat

/-- Python `f"{n:02}"`. -/
def pad2 (n : Nat) : String := if n < 10 then ("0") ++ toString n else toString n

/-- util.py `nice_time_str`: `YYYY-MM-DD_HH-MM-SS`. -/
def nice_time_str (t : GTime) : String :=
  toString t.year ++ ("-") ++ pad2 t.mon ++ ("-") ++ pad2 t.mday ++ ("_")
    ++ pad2 t.hour ++ ("-") ++ pad2 t.minute ++ ("-") ++ pad2 t.sec

/-- util.py `get_output_fpath`; `os.path.join` is modelled by a slash. -/
def get_output_fpath (fs : FS) (t : GTime) (output_fpath : String)
    (label : Option String) : Except PyErr String :=
  if fs.isDir output_fpath then
    Except.ok (output_fpath ++ ("/pdexplore_") ++ pyStrOpt label ++ ("_")
      ++ nice_time_str t ++ (".txt"))
  else if fs.isFile output_fpath then Except.ok output_fpath
  else Except.error (PyErr.valueErrorBadPath output_fpath)

/-- The mode string both entry points pass to `open()`. In Python mode
semantics `w` truncates an existing file and creates a missing one, while
append modes contain the character `a`; this mode has `w` and no `a`. -/
def OPEN_MODE : String := "wt+"

/-- Modelled from the spec: "if the path names an existing file, it is
opened in append/write-create mode" — a Python open mode is an append mode
exactly when it contains the character `a`. -/
def opensInAppendMode (mode : String) : Bool := mode.data.contains ('a')

/-- The observable trace of an `explore` call: the globals, the file opened
(path and mode) if any, and the lines written. An `Except.error` result
carries the trace as it stood when the exception was raised. -/
structure TableRun where
  gstate : GState
  opened : Option (String × String)
  msgs : List Msg
deriving DecidableEq

/-- core.py's module-level `OUTPUT_F` is a stale `from .util import` value
binding: `set_output_f` rebinds only util's own global, so the name core.py
reads in its `OUTPUT_F is None` checks is permanently `None`. -/
def CORE_OUTPUT_F : Option Unit := none

/-- core.py `explore` (table entry point). `set_printing_to_screen` runs
before any validation; the silent/no-path check reads the stale
`CORE_OUTPUT_F` binding, so it raises on every silent call without a path;
the output stream set inside the `with` block is never reset, so `outputF`
remains set; an uncaught exploration exception (e.g. the ZeroDivisionError
of a zero-entry column) propagates after the file was already opened. -/
def explore (o : StatsOracle) (fs : FS) (t : GTime) (cols : List (String × Series))
    (output_path : Option String) (skip_lbl : Option (List String))
    (skip_cond : SkipCondArg) (silent : Bool) (g : GState) :
    Except (PyErr × TableRun) TableRun :=
  let g1 : GState := { g with printToScreen := !silent }
  match output_path with
  | some p =>
    match get_output_fpath fs t p none with
    | Except.error e => Except.error (e, { gstate := g1, opened := none, msgs := [] })
    | Except.ok fp =>
      match explore_df o cols skip_lbl skip_cond with
      | Except.error em =>
        Except.error (em.1, { gstate := { g1 with outputF := true },
                              opened := some (fp, OPEN_MODE), msgs := em.2 })
      | Except.ok ms =>
        Except.ok { gstate := { g1 with outputF := true },
                    opened := some (fp, OPEN_MODE), msgs := ms }
  | none =>
    if CORE_OUTPUT_F = none ∧ silent = true then
      Except.error (PyErr.valueErrorSilent, { gstate := g1, opened := none, msgs := [] })
    else
      match explore_df o cols skip_lbl skip_cond with
      | Except.error em =>
        Except.error (em.1, { gstate := g1, opened := none, msgs := em.2 })
      | Except.ok ms => Except.ok { gstate := g1, opened := none, msgs := ms }

/-- The parameter names of util.py `get_output_fpath`. -/
def get_output_fpath_params : List String := ["output_fpath", "label"]

/-- The parameter names of core.py `_explore_series`. -/
def explore_series_inner_params : List String := ["series", "label"]

/-- Python keyword binding at a call site: an unexpected keyword raises
`TypeError` naming the callee, before the callee body runs. -/
def checkKwargs (fn : String) (params : List String) (kwargs : List String) :
    Except PyErr Unit :=
  match kwargs.find? (fun k => !(params.contains k)) with
  | some k => Except.error (PyErr.typeErrorKw fn k)
  | none => Except.ok ()

/-- The observable trace of an `explore_series` call; an `Except.error`
result carries the trace as it stood when the exception was raised. -/
structure SeriesRun where
  gstate : GState
  opened : Option (String × String)
  msgs : List Msg
deriving DecidableEq

/-- core.py `explore_series` (series entry point). Its source calls
`get_output_fpath(output_path, laebl=label)` — the unknown keyword `laebl`
raises before path resolution — and, were that reached, the inner call
`_explore_series(df=series, label=label)` binds the unknown keyword `df`.
The silent/no-path check reads the stale `CORE_OUTPUT_F` binding. -/
def explore_series (o : StatsOracle) (fs : FS) (t : GTime) (srs : Series)
    (label : Option String) (output_path : Option String) (silent : Bool)
    (g : GState) : Except (PyErr × SeriesRun) SeriesRun :=
  let g1 : GState := { g with printToScreen := !silent }
  match output_path with
  | some p =>
    match checkKwargs ("get_output_fpath") get_output_fpath_params ["laebl"] with
    | Except.error e => Except.error (e, { gstate := g1, opened := none, msgs := [] })
    | Except.ok _ =>
      match get_output_fpath fs t p none with
      | Except.error e => Except.error (e, { gstate := g1, opened := none, msgs := [] })
      | Except.ok fp =>
        match checkKwargs ("_explore_series") explore_series_inner_params ["df", "label"] with
        | Except.error e =>
          Except.error (e, { gstate := { g1 with outputF := true },
                             opened := some (fp, OPEN_MODE), msgs := [] })
        | Except.ok _ =>
          match explore_series_inner o srs label with
          | Except.error em =>
            Except.error (em.1, { gstate := { g1 with outputF := true },
                                  opened := some (fp, OPEN_MODE), msgs := em.2 })
          | Except.ok ms =>
            Except.ok { gstate := { g1 with outputF := false },
                        opened := some (fp, OPEN_MODE), msgs := ms }
  | none =>
    if CORE_OUTPUT_F = none ∧ silent = true then
      Except.error (PyErr.valueErrorSilent, { gstate := g1, opened := none, msgs := [] })
    else
      match checkKwargs ("_explore_series") explore_series_inner_params ["df", "label"] with
      | Except.error e => Except.error (e, { gstate := g1, opened := none, msgs := [] })
      | Except.ok _ =>
        match explore_series_inner o srs label with
        | Except.error em =>
          Except.error (em.1, { gstate := g1, opened := none, msgs := em.2 })
        | Except.ok ms => Except.ok { gstate := g1, opened := none, msgs := ms }

/-! Helper lemmas about the frequency-descending sort. -/

theorem mem_insertDesc {x p : Val × Nat} {l : List (Val × Nat)}
    (h : x ∈ insertDesc p l) : x = p ∨ x ∈ l := by
  induction l with
  | nil => simpa [insertDesc] using h
  | cons q rest ih =>
    simp only [insertDesc] at h
    split at h
    · rcases List.mem_cons.1 h with h1 | h2
      · exact Or.inr (List.mem_cons.2 (Or.inl h1))
      · rcases ih h2 with h3 | h4
        · exact Or.inl h3
        · exact Or.inr (List.mem_cons.2 (Or.inr h4))
    · rcases List.mem_cons.1 h with h1 | h2
      · exact Or.inl h1
      · exact Or.inr h2

theorem insertDesc_pairwise (p : Val × Nat) (l : List (Val × Nat))
    (h : l.Pairwise (fun a b => b.2 ≤ a.2)) :
    (insertDesc p l).Pairwise (fun a b => b.2 ≤ a.2) := by
  induction l with
  | nil => simp [insertDesc]
  | cons q rest ih =>
    rcases List.pairwise_cons.1 h with ⟨hq, hrest⟩
    simp only [insertDesc]
    split
    · rename_i hlt
      refine List.pairwise_cons.2 ⟨?_, ih hrest⟩
      intro x hx
      rcases mem_insertDesc hx with h1 | h2
      · subst h1; omega
      · exact hq x h2
    · rename_i hge
      refine List.pairwise_cons.2 ⟨?_, h⟩
      intro x hx
      rcases List.mem_cons.1 hx with h1 | h2
      · subst h1; omega
      · have := hq x h2; omega

theorem sortCountDesc_pairwise (l : List (Val × Nat)) :
    (sortCountDesc l).Pairwise (fun a b => b.2 ≤ a.2) := by
  induction l with
  | nil => simp [sortCountDesc]
  | cons p rest ih =>
    show (insertDesc p (sortCountDesc rest)).Pairwise (fun a b => b.2 ≤ a.2)
    exact insertDesc_pairwise p _ ih

theorem ilocZero_max {vc : List (Val × Nat)}
    (h : vc.Pairwise (fun a b => b.2 ≤ a.2)) :
    ∀ pr ∈ vc, pr.2 ≤ ilocZeroCount vc := by
  cases vc with
  | nil => simp
  | cons q rest =>
    intro pr hpr
    rcases List.mem_cons.1 hpr with h1 | h2
    · subst h1; simp [ilocZeroCount]
    · have := (List.pairwise_cons.1 h).1 pr h2
      simpa [ilocZeroCount] using this

theorem insertDesc_length (p : Val × Nat) (l : List (Val × Nat)) :
    (insertDesc p l).length = l.length + 1 := by
  induction l with
  | nil => rfl
  | cons q rest ih => simp only [insertDesc]; split <;> simp [ih]

theorem sortCountDesc_length (l : List (Val × Nat)) :
    (sortCountDesc l).length = l.length := by
  induction l with
  | nil => rfl
  | cons p rest ih =>
    show (insertDesc p (sortCountDesc rest)).length = rest.length + 1
    rw [insertDesc_length, ih]

theorem value_counts_length (s : Series) :
    s.value_counts.length = (distinctVals s.dropna).length := by
  simp [Series.value_counts, sortCountDesc_length]

/-! Shared concrete fixtures used by closed instances. -/

def oFalse : StatsOracle := ⟨fun _ => false, fun _ => false, fun _ => false⟩

def fsEmpty : FS := ⟨fun _ => false, fun _ => false⟩

def t0 : GTime := ⟨2026, 10, 12, 3, 4, 5⟩

def st0 : St := ⟨none, []⟩

def gInit : GState := ⟨true, false⟩

def srsEmptyW : Series := ⟨false, []⟩

def pTrueW : Precond := ⟨"always true", fun _ st => Except.ok (true, st)⟩

def pFalseW : Precond := ⟨"Always fails", fun _ st => Except.ok (false, st)⟩

def pBoomW : Precond := ⟨"boom", fun _ st => Except.error (("boom"), st)⟩

/-- Sequential evaluation of a precondition list in which every predicate
returns true, transforming the state as it goes. -/
inductive PassesAll (srs : Series) : List Precond → St → St → Prop where
  | nil (st : St) : PassesAll srs [] st st
  | cons (p : Precond) (ps : List Precond) (st st1 st2 : St)
      (h : p.check srs st = Except.ok (true, st1))
      (hrest : PassesAll srs ps st1 st2) : PassesAll srs (p :: ps) st st2

/-- C2: precondition evaluation short-circuits — a first failing
precondition yields exactly one skip report of the prescribed form and a
false verdict with the remaining preconditions never evaluated; true is
returned exactly when every precondition passes; and `apply` runs the body
iff the verdict is true, adding nothing itself on a skip. -/
theorem claim_C2 :
    (∀ (nm : String) (ps1 : List Precond) (p : Precond) (ps2 : List Precond)
        (srs : Series) (st st1 st2 : St),
        PassesAll srs ps1 st st1 →
        p.check srs st1 = Except.ok (false, st2) →
        preconditions_hold nm (ps1 ++ p :: ps2) srs st =
          Except.ok (false, emit st2 (skipMsg nm p.fail_msg)))
  ∧ (∀ (nm : String) (ps : List Precond) (srs : Series) (st st1 : St),
        PassesAll srs ps st st1 ↔
        preconditions_hold nm ps srs st = Except.ok (true, st1))
  ∧ (∀ (e : Exploration) (srs : Series) (st st1 : St),
        preconditions_hold e.name e.preconds srs st = Except.ok (true, st1) →
        e.apply srs st = e.body srs st1)
  ∧ (∀ (e : Exploration) (srs : Series) (st st1 : St),
        preconditions_hold e.name e.preconds srs st = Except.ok (false, st1) →
        e.apply srs st = Except.ok st1) := by
  refine ⟨?_, ?_, ?_, ?_⟩
  · intro nm ps1 p ps2 srs st st1 st2 hpass hfail
    revert hfail
    induction hpass with
    | nil st => intro hfail; simp [preconditions_hold, hfail]
    | cons q ps st stA stB hq hrest ih =>
      intro hfail
      simp only [List.cons_append, preconditions_hold, hq]
      exact ih hfail
  · intro nm ps srs st st1
    constructor
    · intro hpass
      induction hpass with
      | nil st => rfl
      | cons q ps st stA stB hq hrest ih =>
        simp only [preconditions_hold, hq]
        exact ih
    · intro heq
      induction ps generalizing st with
      | nil =>
        simp only [preconditions_hold, Except.ok.injEq, Prod.mk.injEq, true_and] at heq
        subst heq
        exact PassesAll.nil st
      | cons p rest ih =>
        simp only [preconditions_hold] at heq
        cases hc : p.check srs st with
        | error e => rw [hc] at heq; exact absurd heq (by simp)
        | ok bs =>
          rcases bs with ⟨b, stA⟩
          rw [hc] at heq
          cases b with
          | true =>
            simp only [if_pos rfl] at heq
            exact PassesAll.cons p rest st stA st1 hc (ih stA (by simpa using heq))
          | false => simp at heq
  · intro e srs st st1 h
    simp [Exploration.apply, h]
  · intro e srs st st1 h
    simp [Exploration.apply, h]

/-- C2 witness: a concrete three-precondition list in which the first
passes, the second fails and the third would raise — evaluation stops at
the second with the exact skip line. -/
theorem claim_C2_witness :
    preconditions_hold ("T") [pTrueW, pFalseW, pBoomW] srsEmptyW st0 =
      Except.ok (false, emit st0 (skipMsg ("T") ("Always fails"))) :=
  claim_C2.1 ("T") [pTrueW] pFalseW [pBoomW] srsEmptyW st0 st0 st0
    (PassesAll.cons pTrueW [] st0 st0 st0 rfl (PassesAll.nil st0)) rfl

/-- C9: calling the public `explore_series` with any non-None output path
raises `TypeError` for the unknown keyword `laebl` before any file is
opened or any output written; `laebl` is not a parameter of
`get_output_fpath`, and `df` is not a parameter of `_explore_series`. -/
theorem claim_C9 (o : StatsOracle) (fs : FS) (t : GTime) (srs : Series)
    (lbl : Option String) (silent : Bool) (g : GState) (p : String) :
    explore_series o fs t srs lbl (some p) silent g =
      Except.error (PyErr.typeErrorKw ("get_output_fpath") ("laebl"),
        { gstate := { g with printToScreen := !silent }, opened := none, msgs := [] })
  ∧ ¬ (("laebl" : String) ∈ get_output_fpath_params)
  ∧ ¬ (("df" : String) ∈ explore_series_inner_params) :=
  ⟨rfl, by decide, by decide⟩

/-- C10: `Exploration.save` sets exactly the given key — reads of any other
key are unchanged — and attaches a fresh one-entry cache when none exists. -/
theorem claim_C10 (c : Cache) (k k2 : String) (v : CVal) :
    dictGet (dictSet c k v) k2 = (if k2 = k then some v else dictGet c k2)
  ∧ Exploration.save none k v = [(k, v)]
  ∧ Exploration.save (some c) k v = dictSet c k v := by
  refine ⟨?_, rfl, rfl⟩
  induction c with
  | nil =>
    by_cases h : k2 = k
    · subst h; simp [dictSet, dictGet]
    · have h' : ¬ k = k2 := fun hh => h hh.symm
      simp [dictSet, dictGet, h, h']
  | cons hd tl ih =>
    rcases hd with ⟨k1, v1⟩
    by_cases h1 : k1 = k
    · subst h1
      by_cases h2 : k2 = k1
      · subst h2; simp [dictSet, dictGet]
      · have h2' : ¬ k1 = k2 := fun hh => h2 hh.symm
        simp [dictSet, dictGet, h2, h2']
    · by_cases h2 : k1 = k2
      · subst h2
        simp [dictSet, dictGet, h1]
      · simp [dictSet, dictGet, h1, h2, ih]

/-- The Boolean verdict of a precondition evaluation (its state dropped). -/
def precondVerdict (e : Exploration) (srs : Series) (st : St) :
    Except (String × St) Bool :=
  (preconditions_hold e.name e.preconds srs st).map (fun bs => bs.1)

/-- C3: with the non-missing subset cached (as the pipeline guarantees), on
a numeric column the skewness and D’Agostino preconditions come out true
exactly when the non-missing count is at least 8, and the Shapiro-Wilk
preconditions exactly when it is between 4 and 5000 inclusive. -/
theorem claim_C3 (o : StatsOracle) (srs : Series) (st : St)
    (hnum : srs.dtypeNum = true)
    (hcache : stGet st ("nona") = some (CVal.listV srs.dropna)) :
    precondVerdict (SkewnessTest o) srs st =
      Except.ok (decide (8 ≤ srs.dropna.length))
  ∧ precondVerdict (DagostinoNormalityTest o) srs st =
      Except.ok (decide (8 ≤ srs.dropna.length))
  ∧ precondVerdict (ShapiroWilkNormalityTest o) srs st =
      Except.ok (decide (4 ≤ srs.dropna.length ∧ srs.dropna.length ≤ 5000)) := by
  have hn : getNona st = Except.ok srs.dropna := by simp [getNona, hcache]
  refine ⟨?_, ?_, ?_⟩
  · by_cases h8 : 8 ≤ srs.dropna.length <;>
      simp [precondVerdict, Except.map, preconditions_hold, SkewnessTest,
        skew_has_atleast_eight_non_null_values, is_of_numeric_dtype, hn, hnum, h8]
  · by_cases h8 : 8 ≤ srs.dropna.length <;>
      simp [precondVerdict, Except.map, preconditions_hold, DagostinoNormalityTest,
        dag_has_atleast_eight_non_null_values, is_of_numeric_dtype, hn, hnum, h8]
  · by_cases h4 : 4 ≤ srs.dropna.length
    · by_cases h5 : srs.dropna.length ≤ 5000 <;>
        simp [precondVerdict, Except.map, preconditions_hold, ShapiroWilkNormalityTest,
          shapiro_has_atleast_four_non_null_values, has_atmost_5000_non_null_values,
          is_of_numeric_dtype, hn, hnum, h4, h5]
    · simp [precondVerdict, Except.map, preconditions_hold, ShapiroWilkNormalityTest,
        shapiro_has_atleast_four_non_null_values, has_atmost_5000_non_null_values,
        is_of_numeric_dtype, hn, h4]

def srs123 : Series := ⟨true, [some (Val.num 1), some (Val.num 2), some (Val.num 3)]⟩

def stN123 : St := ⟨some [(("nona"), CVal.listV [Val.num 1, Val.num 2, Val.num 3])], []⟩

def srs1234 : Series :=
  ⟨true, [some (Val.num 1), some (Val.num 2), some (Val.num 3), some (Val.num 4)]⟩

def stN1234 : St :=
  ⟨some [(("nona"), CVal.listV [Val.num 1, Val.num 2, Val.num 3, Val.num 4])], []⟩

/-- C3 witness: at 3 non-missing values the skewness precondition fails and
at 4 the Shapiro-Wilk precondition passes (the 3/4 boundary flip). -/
theorem claim_C3_witness :
    precondVerdict (SkewnessTest oFalse) srs123 stN123 = Except.ok false
  ∧ precondVerdict (ShapiroWilkNormalityTest oFalse) srs1234 stN1234 =
      Except.ok true := by
  constructor
  · exact (claim_C3 oFalse srs123 stN123 rfl (by decide)).1
  · exact (claim_C3 oFalse srs1234 stN1234 rfl (by decide)).2.2

/-- C4: with the frequency table cached (as the pipeline guarantees), the
value-counts plot check is skipped exactly when there are fewer than 2
distinct non-missing values or the most frequent value occurs at most 2
times; otherwise it plots the take-10 of the frequency-descending table
with the total count the percentages are taken of. The table is sorted by
count descending, its head count bounds every count, and its length is the
number of distinct non-missing values. -/
theorem claim_C4 (srs : Series) (st : St) (lbl : Option String)
    (hcache : stGet st ("vcounts") = some (CVal.countsV srs.value_counts)) :
    Exploration.apply (ValueCountsPlot lbl) srs st =
      (if srs.value_counts.length < 2 then
        Except.ok (emit st (skipMsg ("Value counts plot") ("Less than two uniqe values")))
      else if ilocZeroCount srs.value_counts ≤ 2 then
        Except.ok (emit st (skipMsg ("Value counts plot")
          ("Low frequency of most-frequent value")))
      else Except.ok (emit st (Msg.plot (srs.value_counts.take 10) srs.len lbl)))
  ∧ srs.value_counts.Pairwise (fun a b => b.2 ≤ a.2)
  ∧ (∀ pr ∈ srs.value_counts, pr.2 ≤ ilocZeroCount srs.value_counts)
  ∧ srs.value_counts.length = (distinctVals srs.dropna).length := by
  have hv : getVcounts st = Except.ok srs.value_counts := by simp [getVcounts, hcache]
  have hpw : srs.value_counts.Pairwise (fun a b => b.2 ≤ a.2) := by
    simpa [Series.value_counts] using
      sortCountDesc_pairwise ((distinctVals srs.dropna).map (fun v => (v, srs.dropna.count v)))
  refine ⟨?_, hpw, ilocZero_max hpw, value_counts_length srs⟩
  by_cases h2 : srs.value_counts.length < 2
  · have h1 : ¬ 1 < srs.value_counts.length := by omega
    simp [Exploration.apply, preconditions_hold, ValueCountsPlot,
      has_atleast_two_unique_values, high_enough_frequency_of_most_frequent_value,
      hv, h2, h1]
  · by_cases h3 : ilocZeroCount srs.value_counts ≤ 2
    · have h1 : 1 < srs.value_counts.length := by omega
      have h3' : ¬ 2 < ilocZeroCount srs.value_counts := by omega
      simp [Exploration.apply, preconditions_hold, ValueCountsPlot,
        has_atleast_two_unique_values, high_enough_frequency_of_most_frequent_value,
        hv, h2, h1, h3, h3']
    · have h1 : 1 < srs.value_counts.length := by omega
      have h3' : 2 < ilocZeroCount srs.value_counts := by omega
      have htake : (if 10 < srs.value_counts.length then srs.value_counts.take 10
          else srs.value_counts) = srs.value_counts.take 10 := by
        by_cases h10 : 10 < srs.value_counts.length
        · simp [h10]
        · have htake10 : srs.value_counts.take 10 = srs.value_counts :=
            List.take_of_length_le (by omega)
          simp [h10, htake10]
      simp [Exploration.apply, preconditions_hold, ValueCountsPlot,
        has_atleast_two_unique_values, high_enough_frequency_of_most_frequent_value,
        hv, h2, h1, h3, h3', htake]

def srs78 : Series :=
  ⟨true, [some (Val.num 1), some (Val.num 2), some (Val.num 2),
          some (Val.num 3), some (Val.num 3), some (Val.num 3), none]⟩

def stV78 : St := ⟨some [(("vcounts"), CVal.countsV srs78.value_counts)], []⟩

/-- C4 witness: on [1,2,2,3,3,3,NaN] (3 distinct, top count 3) the check
runs and plots the full three-row table. -/
theorem claim_C4_witness :
    Exploration.apply (ValueCountsPlot none) srs78 stV78 =
      Except.ok (emit stV78 (Msg.plot (srs78.value_counts.take 10) srs78.len none)) := by
  have h := (claim_C4 srs78 stV78 none (by decide)).1
  rw [h]
  rfl

/-- The state in which the numeric pipeline aborts on a fresh numeric column
with fewer than 4 non-missing values: the four statistical checks were
skipped (four skip lines) but `nona` WAS cached by the failing basic-numeric
precondition, and no other key was written. -/
def c1FinalSt (srs : Series) : St :=
  { cache := some [(("nona"), CVal.listV srs.dropna)],
    out := [skipMsg ("Basic numeric exploration") ("Less than four non-null values"),
            skipMsg ("Skewness test") ("Less than eight non-null values"),
            skipMsg ("Shapiro-Wilk normality test") ("Less than three non-null values"),
            skipMsg ("D’Agostino’s K^2 normality test") ("Less than eight non-null values")] }

/-- C1 (amended): on a numeric column with fewer than 4 non-missing values
the basic-numeric, skewness, Shapiro-Wilk and D’Agostino checks are all
skipped and `skewness` is never cached, BUT the key `nona` is cached (the
basic-numeric precondition saves it before failing), and the
suspicious-integer check is NOT skipped: its sole dtype precondition passes
and its body then raises on the missing `vcounts` key, aborting the
pipeline. -/
theorem claim_C1_amended (o : StatsOracle) (srs : Series)
    (hnum : srs.dtypeNum = true) (hlt : srs.dropna.length < 4) :
    run_numeric_exploration_pipeline o srs st0 =
      Except.error (("missing cache key vcounts"), c1FinalSt srs)
  ∧ stGet (c1FinalSt srs) ("nona") = some (CVal.listV srs.dropna)
  ∧ stGet (c1FinalSt srs) ("skewness") = none := by
  have h4 : ¬ 4 ≤ srs.dropna.length := by omega
  have h8 : ¬ 8 ≤ srs.dropna.length := by omega
  have hnv : ¬ (("nona" : String) = "vcounts") := by decide
  have hns : ¬ (("nona" : String) = "skewness") := by decide
  refine ⟨?_, by simp [c1FinalSt, stGet, dictGet], by simp [c1FinalSt, stGet, dictGet, hns]⟩
  simp [run_numeric_exploration_pipeline, applyAll, Exploration.apply, preconditions_hold,
    BasicNumericExploration, SkewnessTest, ShapiroWilkNormalityTest,
    DagostinoNormalityTest, SuspiciousNumbersCheck,
    basic_has_atleast_four_non_null_values, skew_has_atleast_eight_non_null_values,
    shapiro_has_atleast_four_non_null_values, has_atmost_5000_non_null_values,
    dag_has_atleast_eight_non_null_values, is_of_numeric_dtype, hnum, h4, h8,
    getNona, getVcounts, stGet, stSave, Exploration.save, dictSet, dictGet,
    emit, st0, c1FinalSt, hnv]

/-- C1 counterexample to the claim as stated: for the concrete numeric
column [1,2,3] the pipeline does not end with an empty cache — it aborts in
the (un-skipped) suspicious-integer check with the numeric cache key `nona`
present. -/
theorem claim_C1_counterexample :
    run_numeric_exploration_pipeline oFalse srs123 st0 =
      Except.error (("missing cache key vcounts"), c1FinalSt srs123)
  ∧ stGet (c1FinalSt srs123) ("nona") =
      some (CVal.listV [Val.num 1, Val.num 2, Val.num 3]) :=
  ⟨rfl, rfl⟩

/-- C1 witness for the amended statement. -/
theorem claim_C1_witness :
    run_numeric_exploration_pipeline oFalse srs123 st0 =
      Except.error (("missing cache key vcounts"), c1FinalSt srs123)
  ∧ stGet (c1FinalSt srs123) ("nona") = some (CVal.listV srs123.dropna)
  ∧ stGet (c1FinalSt srs123) ("skewness") = none :=
  claim_C1_amended oFalse srs123 rfl (by decide)

/-- C6 (amended): EVERY table exploration call with `silent=True` and no
output path raises the configuration `ValueError` (core.py reads its stale
from-import `OUTPUT_F` binding, which is permanently `None`) before any
column is explored, with no file opened and no output produced — but the
call is not free of observable effects: the process-wide print-to-screen
flag has already been overwritten with `False` when the exception is
raised. -/
theorem claim_C6_amended (o : StatsOracle) (fs : FS) (t : GTime)
    (cols : List (String × Series)) (skip_lbl : Option (List String))
    (skip_cond : SkipCondArg) (g : GState) :
    explore o fs t cols none skip_lbl skip_cond true g =
      Except.error (PyErr.valueErrorSilent,
        { gstate := { g with printToScreen := false }, opened := none, msgs := [] }) := by
  simp [explore, CORE_OUTPUT_F]

/-- C6 counterexample to the claim as stated: from the initial global state
(screen printing on) the failed call leaves the screen-printing flag
changed from true to false, so observable state IS changed. -/
theorem claim_C6_counterexample :
    explore oFalse fsEmpty t0 [] none none SkipCondArg.noneArg true ⟨true, false⟩ =
      Except.error (PyErr.valueErrorSilent,
        { gstate := (⟨false, false⟩ : GState), opened := none, msgs := [] })
  ∧ (⟨false, false⟩ : GState) ≠ (⟨true, false⟩ : GState) :=
  ⟨rfl, by decide⟩

def fsDirAll : FS := ⟨fun _ => true, fun _ => false⟩

def fsOutFile : FS := ⟨fun _ => false, fun q => decide (q = "out.txt")⟩

/-- C7 (amended): for the table entry point, a path naming an existing
directory resolves to a fresh file inside it named from the fixed prefix,
the label slot (`None` when absent) and the `YYYY-MM-DD_HH-MM-SS`
timestamp; a path naming an existing file is opened with mode `"wt+"` —
write-truncate, create-if-missing, NOT append — whether the exploration
then completes (full output into the file) or aborts on an uncaught
per-column exception (the output so far is in the file and the error
propagates); any other path raises the bad-path `ValueError` before any
file is opened or output written; the series entry point never reaches
path resolution at all (C9). -/
theorem claim_C7_amended (o : StatsOracle) (fs : FS) (t : GTime)
    (cols : List (String × Series)) (skip_lbl : Option (List String))
    (skip_cond : SkipCondArg) (silent : Bool) (g : GState) (p lbl : String) :
    (fs.isDir p = true →
      get_output_fpath fs t p (some lbl) =
        Except.ok (p ++ ("/pdexplore_") ++ lbl ++ ("_") ++ nice_time_str t ++ (".txt")))
  ∧ (fs.isDir p = true →
      get_output_fpath fs t p none =
        Except.ok (p ++ ("/pdexplore_") ++ ("None") ++ ("_") ++ nice_time_str t ++ (".txt")))
  ∧ (fs.isDir p = false → fs.isFile p = true →
      (∀ ms, explore_df o cols skip_lbl skip_cond = Except.ok ms →
        explore o fs t cols (some p) skip_lbl skip_cond silent g =
          Except.ok { gstate := { g with printToScreen := !silent, outputF := true },
                      opened := some (p, OPEN_MODE), msgs := ms })
      ∧ (∀ er ms, explore_df o cols skip_lbl skip_cond = Except.error (er, ms) →
        explore o fs t cols (some p) skip_lbl skip_cond silent g =
          Except.error (er,
            { gstate := { g with printToScreen := !silent, outputF := true },
              opened := some (p, OPEN_MODE), msgs := ms })))
  ∧ (fs.isDir p = false → fs.isFile p = false →
      explore o fs t cols (some p) skip_lbl skip_cond silent g =
        Except.error (PyErr.valueErrorBadPath p,
          { gstate := { g with printToScreen := !silent }, opened := none, msgs := [] }))
  ∧ OPEN_MODE = "wt+"
  ∧ nice_time_str t0 = "2026-10-12_03-04-05" := by
  refine ⟨?_, ?_, ?_, ?_, rfl, by decide⟩
  · intro h; simp [get_output_fpath, h, pyStrOpt]
  · intro h; simp [get_output_fpath, h, pyStrOpt]
  · intro h1 h2
    constructor
    · intro ms hms; simp [explore, get_output_fpath, h1, h2, hms]
    · intro er ms hms; simp [explore, get_output_fpath, h1, h2, hms]
  · intro h1 h2; simp [explore, get_output_fpath, h1, h2]

/-- C7 witness for the amended statement. -/
theorem claim_C7_witness :
    get_output_fpath fsDirAll t0 ("outdir") (some ("col")) =
      Except.ok (("outdir") ++ ("/pdexplore_") ++ ("col") ++ ("_")
        ++ nice_time_str t0 ++ (".txt"))
  ∧ explore oFalse fsOutFile t0 [] (some ("out.txt")) none SkipCondArg.noneArg false gInit =
      Except.ok { gstate := { gInit with printToScreen := true, outputF := true },
                  opened := some (("out.txt"), OPEN_MODE),
                  msgs := [Msg.text ("Starting to explore a dataframe with pdexplore."),
                           Msg.dfShape 0 0] } := by
  constructor
  · exact (claim_C7_amended oFalse fsDirAll t0 [] none SkipCondArg.noneArg false gInit
      ("outdir") ("col")).1 rfl
  · exact ((claim_C7_amended oFalse fsOutFile t0 [] none SkipCondArg.noneArg false gInit
      ("out.txt") ("col")).2.2.1 rfl (by decide)).1
      ([Msg.text ("Starting to explore a dataframe with pdexplore."), Msg.dfShape 0 0]) rfl

/-- C7 counterexample to the claim as stated: an existing file is opened
with mode `"wt+"`, which is not an append mode (it truncates), and the
series entry point raises `TypeError` before any file could be created. -/
theorem claim_C7_counterexample :
    explore oFalse fsOutFile t0 [] (some ("out.txt")) none SkipCondArg.noneArg false gInit =
      Except.ok { gstate := ⟨true, true⟩, opened := some (("out.txt"), ("wt+")),
                  msgs := [Msg.text ("Starting to explore a dataframe with pdexplore."),
                           Msg.dfShape 0 0] }
  ∧ opensInAppendMode ("wt+") = false
  ∧ explore_series oFalse fsDirAll t0 srsEmptyW none (some ("outdir")) false gInit =
      Except.error (PyErr.typeErrorKw ("get_output_fpath") ("laebl"),
        { gstate := (⟨true, false⟩ : GState), opened := none, msgs := [] }) :=
  ⟨rfl, by decide, rfl⟩

/-! Message classifiers and counting lemmas for the table driver. -/

def isSkipColumnMsg : Msg → Bool
  | Msg.skipColumn _ => true
  | _ => false

def isSkipSummaryMsg : Msg → Bool
  | Msg.skipSummary _ => true
  | _ => false

/-- The number of "Skipping exploration of column ..." lines in an output. -/
def countSkipColumnMsgs (ms : List Msg) : Nat := (ms.filter isSkipColumnMsg).length

theorem countSkipColumnMsgs_append (a b : List Msg) :
    countSkipColumnMsgs (a ++ b) = countSkipColumnMsgs a + countSkipColumnMsgs b := by
  simp [countSkipColumnMsgs]

theorem countSkipColumnMsgs_cons (m : Msg) (b : List Msg) :
    countSkipColumnMsgs (m :: b) =
      (if isSkipColumnMsg m = true then 1 else 0) + countSkipColumnMsgs b := by
  simp only [countSkipColumnMsgs, List.filter_cons]
  split <;> simp [Nat.add_comm]

theorem filter_not_of_filter_nil {ms : List Msg} (h : ms.filter isSkipSummaryMsg = []) :
    ms.filter (fun m => !(isSkipSummaryMsg m)) = ms := by
  refine List.filter_eq_self.2 ?_
  intro m hm
  by_contra hcon
  have hmt : isSkipSummaryMsg m = true := by
    cases hval : isSkipSummaryMsg m
    · simp [hval] at hcon
    · rfl
  have hmem : m ∈ ms.filter isSkipSummaryMsg := List.mem_filter.2 ⟨hm, hmt⟩
  rw [h] at hmem
  exact absurd hmem (List.not_mem_nil m)

theorem explore_series_inner_clean (o : StatsOracle) (srs : Series) (lbl : Option String) :
    ((emittedMsgs (explore_series_inner o srs lbl)).filter isSkipColumnMsg = [])
  ∧ ((emittedMsgs (explore_series_inner o srs lbl)).filter isSkipSummaryMsg = []) := by
  simp only [explore_series_inner, val_counts_plot, explore_numeric_series]
  constructor <;> (split_ifs <;> simp [emittedMsgs, isSkipColumnMsg, isSkipSummaryMsg])

theorem explore_series_inner_ok (o : StatsOracle) (srs : Series) (lbl : Option String)
    (h : srs.len ≠ 0) :
    explore_series_inner o srs lbl =
      Except.ok (emittedMsgs (explore_series_inner o srs lbl)) := by
  simp [explore_series_inner, h, emittedMsgs]

theorem explore_df_loop_count (o : StatsOracle) (skip_lbl : Option (List String))
    (conds : Option (List (Series → Bool))) (cols : List (String × Series))
    (hne : ∀ c ∈ cols, labelSkipped skip_lbl c.1 = false →
        condSkipped conds c.2 = false → c.2.len ≠ 0) :
    ∃ ms n, explore_df_loop o skip_lbl conds cols = Except.ok (ms, n)
      ∧ countSkipColumnMsgs ms = n
      ∧ n = (cols.filter (fun c => labelSkipped skip_lbl c.1)).length
          + (cols.filter (fun c => !(labelSkipped skip_lbl c.1)
                && condSkipped conds c.2)).length
      ∧ ms.filter isSkipSummaryMsg = [] := by
  induction cols with
  | nil => exact ⟨[], 0, rfl, rfl, by simp, rfl⟩
  | cons hd tl ih =>
    rcases hd with ⟨lbl, col⟩
    obtain ⟨ms, n, heq, h1, h2, h3⟩ := ih (fun c hc => hne c (List.mem_cons_of_mem _ hc))
    have h1' : (ms.filter isSkipColumnMsg).length = n := h1
    by_cases hl : labelSkipped skip_lbl lbl
    · refine ⟨Msg.skipColumn lbl :: ms, n + 1, ?_, ?_, ?_, ?_⟩
      · simp [explore_df_loop, hl, heq]
      · simp [countSkipColumnMsgs, isSkipColumnMsg, h1']
      · simp only [List.filter_cons]
        simp [hl, h2]
        omega
      · simp [isSkipSummaryMsg, h3]
    · by_cases hc : condSkipped conds col
      · refine ⟨Msg.skipColumn lbl :: ms, n + 1, ?_, ?_, ?_, ?_⟩
        · simp [explore_df_loop, hl, hc, heq]
        · simp [countSkipColumnMsgs, isSkipColumnMsg, h1']
        · simp only [List.filter_cons]
          simp [hl, hc, h2]
          omega
        · simp [isSkipSummaryMsg, h3]
      · have hlf : labelSkipped skip_lbl lbl = false := by simpa using hl
        have hcf : condSkipped conds col = false := by simpa using hc
        have hlen : col.len ≠ 0 := hne (lbl, col) (List.mem_cons_self _ _) hlf hcf
        have hok := explore_series_inner_ok o col (some lbl) hlen
        obtain ⟨c1, c2⟩ := explore_series_inner_clean o col (some lbl)
        set ims := emittedMsgs (explore_series_inner o col (some lbl)) with him
        refine ⟨ims ++ ms, n, ?_, ?_, ?_, ?_⟩
        · simp [explore_df_loop, hl, hc, hok, heq]
        · simp [countSkipColumnMsgs, List.filter_append, c1, h1']
        · simpa [List.filter_cons, hlf, hcf] using h2
        · simp [List.filter_append, c2, h3]

theorem explore_df_loop_none_count (o : StatsOracle) (cols : List (String × Series)) :
    countSkipColumnMsgs (loopMsgs (explore_df_loop o none none cols)) = 0 := by
  induction cols with
  | nil => rfl
  | cons hd tl ih =>
    rcases hd with ⟨lbl, col⟩
    obtain ⟨c1, c2⟩ := explore_series_inner_clean o col (some lbl)
    have hc1 : countSkipColumnMsgs (emittedMsgs (explore_series_inner o col (some lbl)))
        = 0 := by
      simp [countSkipColumnMsgs, c1]
    cases hinner : explore_series_inner o col (some lbl) with
    | error e =>
      have he : countSkipColumnMsgs e.2 = 0 := by simpa [hinner, emittedMsgs] using hc1
      simp [explore_df_loop, labelSkipped, condSkipped, hinner, loopMsgs, he]
    | ok ims =>
      have hims : countSkipColumnMsgs ims = 0 := by simpa [hinner, emittedMsgs] using hc1
      cases hrest : explore_df_loop o none none tl with
      | error er =>
        have her : countSkipColumnMsgs er.2 = 0 := by simpa [hrest, loopMsgs] using ih
        simp [explore_df_loop, labelSkipped, condSkipped, hinner, hrest, loopMsgs,
          countSkipColumnMsgs_append, hims, her]
      | ok r =>
        have hr : countSkipColumnMsgs r.1 = 0 := by simpa [hrest, loopMsgs] using ih
        simp [explore_df_loop, labelSkipped, condSkipped, hinner, hrest, loopMsgs,
          countSkipColumnMsgs_append, hims, hr]

/-- A zero-entry numeric column. -/
def srsZero : Series := ⟨true, []⟩

/-- C5 (amended): provided every column that is not skipped has at least
one entry, `_explore_df` completes and emits exactly M + K skip-column
lines (M label-skipped plus K predicate-skipped among the rest), with a
single final `skipSummary (M+K)` exactly when M + K > 0; absent skip
arguments skip nothing (unconditionally — even an aborted run emits no
skip line then), and a bare single predicate is normalized into a
one-element collection. On a zero-entry non-skipped column the loop
instead aborts with the uncaught `ZeroDivisionError` before any later
column and never prints the summary. -/
theorem claim_C5_amended (o : StatsOracle) (cols : List (String × Series))
    (skip_lbl : Option (List String)) (skip_cond : SkipCondArg)
    (hne : ∀ c ∈ cols, labelSkipped skip_lbl c.1 = false →
        condSkipped (normalizeSkipCond skip_cond) c.2 = false → c.2.len ≠ 0) :
    (explore_df o cols skip_lbl skip_cond).isOk = true
  ∧ countSkipColumnMsgs (emittedMsgs (explore_df o cols skip_lbl skip_cond)) =
      (cols.filter (fun c => labelSkipped skip_lbl c.1)).length
      + (cols.filter (fun c => !(labelSkipped skip_lbl c.1)
            && condSkipped (normalizeSkipCond skip_cond) c.2)).length
  ∧ (emittedMsgs (explore_df o cols skip_lbl skip_cond)).filter isSkipSummaryMsg =
      (if 0 < (cols.filter (fun c => labelSkipped skip_lbl c.1)).length
            + (cols.filter (fun c => !(labelSkipped skip_lbl c.1)
                  && condSkipped (normalizeSkipCond skip_cond) c.2)).length
       then [Msg.skipSummary
          ((cols.filter (fun c => labelSkipped skip_lbl c.1)).length
            + (cols.filter (fun c => !(labelSkipped skip_lbl c.1)
                  && condSkipped (normalizeSkipCond skip_cond) c.2)).length)]
       else [])
  ∧ emittedMsgs (explore_df o cols skip_lbl skip_cond) =
      (emittedMsgs (explore_df o cols skip_lbl skip_cond)).filter
        (fun m => !(isSkipSummaryMsg m))
      ++ (emittedMsgs (explore_df o cols skip_lbl skip_cond)).filter isSkipSummaryMsg
  ∧ (∀ p2, explore_df o cols skip_lbl (SkipCondArg.single p2) =
        explore_df o cols skip_lbl (SkipCondArg.listArg [p2]))
  ∧ countSkipColumnMsgs (emittedMsgs (explore_df o cols none SkipCondArg.noneArg)) = 0 := by
  obtain ⟨ms, n, heq, h1, h2, h3⟩ :=
    explore_df_loop_count o skip_lbl (normalizeSkipCond skip_cond) cols hne
  have hnot := filter_not_of_filter_nil h3
  set A : List Msg := [Msg.text ("Starting to explore a dataframe with pdexplore."),
    Msg.dfShape cols.length (dfRows cols)] with hA
  have hEdf : explore_df o cols skip_lbl skip_cond =
      Except.ok (A ++ ms ++ (if 0 < n then [Msg.skipSummary n] else [])) := by
    simp only [explore_df, heq]
  have hAcol : A.filter isSkipColumnMsg = [] := by simp [hA, isSkipColumnMsg]
  have hAsum : A.filter isSkipSummaryMsg = [] := by simp [hA, isSkipSummaryMsg]
  have hAnot : A.filter (fun m => !(isSkipSummaryMsg m)) = A := by
    simp [hA, isSkipSummaryMsg]
  have hScol : (if 0 < n then [Msg.skipSummary n] else []).filter isSkipColumnMsg
      = [] := by
    split <;> simp [isSkipColumnMsg]
  have hSsum : (if 0 < n then [Msg.skipSummary n] else []).filter isSkipSummaryMsg =
      (if 0 < n then [Msg.skipSummary n] else []) := by
    split <;> simp [isSkipSummaryMsg]
  have hSnot : (if 0 < n then [Msg.skipSummary n] else []).filter
      (fun m => !(isSkipSummaryMsg m)) = [] := by
    split <;> simp [isSkipSummaryMsg]
  have h1' : (ms.filter isSkipColumnMsg).length = n := h1
  refine ⟨?_, ?_, ?_, ?_, ?_, ?_⟩
  · rw [hEdf]; rfl
  · rw [hEdf]
    simp only [emittedMsgs, countSkipColumnMsgs, List.filter_append, List.length_append,
      hAcol, hScol, List.length_nil, h1']
    omega
  · rw [hEdf]
    simp only [emittedMsgs, List.filter_append, hAsum, h3, List.nil_append,
      List.append_nil, hSsum]
    rw [← h2]
  · rw [hEdf]
    simp only [emittedMsgs, List.filter_append, hAsum, h3, hAnot, hnot, hSnot, hSsum,
      List.nil_append, List.append_nil, List.append_assoc]
  · intro p2; rfl
  · have hr := explore_df_loop_none_count o cols
    have hA0 : countSkipColumnMsgs
        ([Msg.text ("Starting to explore a dataframe with pdexplore."),
          Msg.dfShape cols.length (dfRows cols)]) = 0 := by
      simp [countSkipColumnMsgs, isSkipColumnMsg]
    cases hrest : explore_df_loop o none none cols with
    | error e =>
      have he : countSkipColumnMsgs e.2 = 0 := by simpa [hrest, loopMsgs] using hr
      simp [explore_df, normalizeSkipCond, hrest, emittedMsgs,
        countSkipColumnMsgs_append, countSkipColumnMsgs_cons, isSkipColumnMsg, he, hA0]
    | ok r =>
      have hrm : countSkipColumnMsgs r.1 = 0 := by simpa [hrest, loopMsgs] using hr
      have hS : countSkipColumnMsgs (if 0 < r.2 then [Msg.skipSummary r.2] else [])
          = 0 := by
        split <;> simp [countSkipColumnMsgs, isSkipColumnMsg]
      simp [explore_df, normalizeSkipCond, hrest, emittedMsgs,
        countSkipColumnMsgs_append, countSkipColumnMsgs_cons, isSkipColumnMsg, hrm, hS, hA0]

/-- C5 counterexample to the claim as stated: a table whose first column
has zero entries and whose second matches the skip-label set (M + K = 1):
the first column aborts exploration with `ZeroDivisionError` at the
missing-percentage line, so zero skip-column lines are emitted and the
summary is never printed. -/
theorem claim_C5_counterexample :
    explore_df oFalse [(("a"), srsZero), (("b"), srsZero)] (some ["b"])
        SkipCondArg.noneArg =
      Except.error (PyErr.zeroDivisionError,
        [Msg.text ("Starting to explore a dataframe with pdexplore."), Msg.dfShape 2 0,
         Msg.header (some ("a")), Msg.startExplore (some ("a")),
         Msg.dtypeReport true, Msg.uniqueReport 0 0])
  ∧ (([(("a"), srsZero), (("b"), srsZero)] : List (String × Series)).filter
        (fun c => labelSkipped (some ["b"]) c.1)).length = 1
  ∧ countSkipColumnMsgs (emittedMsgs (explore_df oFalse
        [(("a"), srsZero), (("b"), srsZero)] (some ["b"]) SkipCondArg.noneArg)) = 0 :=
  ⟨rfl, by decide, by decide⟩

/-- C5 witness for the amended statement: a two-column table of non-empty
columns with one label-skipped column — the run completes with one
skip-column line and a final summary of 1. -/
theorem claim_C5_witness :
    (explore_df oFalse [(("a"), srs123), (("b"), srs123)] (some ["b"])
        SkipCondArg.noneArg).isOk = true
  ∧ countSkipColumnMsgs (emittedMsgs (explore_df oFalse
        [(("a"), srs123), (("b"), srs123)] (some ["b"]) SkipCondArg.noneArg)) = 1
  ∧ (emittedMsgs (explore_df oFalse [(("a"), srs123), (("b"), srs123)] (some ["b"])
        SkipCondArg.noneArg)).filter isSkipSummaryMsg = [Msg.skipSummary 1] := by
  have hne : ∀ c ∈ ([(("a"), srs123), (("b"), srs123)] : List (String × Series)),
      labelSkipped (some ["b"]) c.1 = false →
      condSkipped (normalizeSkipCond SkipCondArg.noneArg) c.2 = false → c.2.len ≠ 0 := by
    intro c hc hl hcnd
    rcases List.mem_cons.1 hc with h1 | h1
    · subst h1; decide
    · rcases List.mem_cons.1 h1 with h2 | h2
      · subst h2; exact absurd hl (by decide)
      · exact absurd h2 (List.not_mem_nil c)
  have h := claim_C5_amended oFalse [(("a"), srs123), (("b"), srs123)] (some ["b"])
    SkipCondArg.noneArg hne
  exact ⟨h.1, h.2.1, h.2.2.1⟩

/-- The output trace of a pipeline run (on an abort, the output as already
emitted when the exception was raised). -/
def outOf : Except (String × St) St → List Msg
  | Except.ok st => st.out
  | Except.error e => e.2.out

/-- The general pipeline run on the scenario column [1,2,2,3,3,3,NaN]. -/
def runG78 : Except (String × St) St := general_exploration srs78 none st0

/-- A column [1,2,2,3,3,3] with most-frequent count 2: [1,2,2,3,3]. -/
def srs5W : Series :=
  ⟨true, [some (Val.num 1), some (Val.num 2), some (Val.num 2),
          some (Val.num 3), some (Val.num 3)]⟩

/-- C8 (amended): on [1,2,2,3,3,3,NaN] the basic check reports 1 missing of
7 (≈ 14.3%) and FOUR unique values (pandas `unique()` counts NaN as a
value; the distinct non-missing values number 3), and the value-counts
precondition is strict `> 2`: the top count 3 passes (the plot is emitted)
while a top count of 2 fails with the skip line. -/
theorem claim_C8_amended :
    Msg.missingReport 1 7 ∈ outOf runG78
  ∧ |(100 : ℚ) * 1 / 7 - 143 / 10| < 1 / 10
  ∧ Msg.uniqueReport 4 7 ∈ outOf runG78
  ∧ (distinctVals srs78.dropna).length = 3
  ∧ ilocZeroCount srs78.value_counts = 3
  ∧ 2 < ilocZeroCount srs78.value_counts
  ∧ Msg.plot [(Val.num 3, 3), (Val.num 2, 2), (Val.num 1, 1)] 7 none ∈ outOf runG78
  ∧ ilocZeroCount srs5W.value_counts = 2
  ∧ skipMsg ("Value counts plot") ("Low frequency of most-frequent value")
      ∈ outOf (general_exploration srs5W none st0) := by
  refine ⟨by decide, ?_, by decide, by decide, by decide, by decide, by decide,
    by decide, by decide⟩
  rw [abs_lt]
  constructor <;> norm_num

/-- C8 counterexample to the claim as stated: the basic check's only
unique-count line on [1,2,2,3,3,3,NaN] reports 4 values, not the claimed 3. -/
theorem claim_C8_counterexample :
    Msg.uniqueReport 4 7 ∈ outOf runG78
  ∧ ¬ (Msg.uniqueReport 3 7 ∈ outOf runG78) := by
  exact ⟨by decide, by decide⟩

end Pdexplore
